import Mathlib

/-!
Shallow embedding of the WonderJournal repository (Express backend model
layer `src/backend/models/moment.js`, auth middleware
`src/backend/middleware/auth.js`, and the frontend API client
`src/wonder-journal/src/api.js`), together with theorems checking the
specification's claims about it.

Database tables (`users`, `moments`, `moment_media`, `tags`, `moments_tags`)
are modelled as lists of rows; SQL dates as integers; fallible operations
return `Except`.
-/

deriving instance DecidableEq for Except

namespace WonderJournal

/-- A row of the `users` table (only the column the modelled code touches). -/
structure UserRow where
  username : String
deriving DecidableEq

/-- A row of the `moments` table: columns `id, title, text, date, username`. -/
structure MomentRow where
  id : Nat
  title : String
  text : String
  date : Int
  username : String
deriving DecidableEq

/-- A row of the `moment_media` table: columns `id, type, url, moment_id`. -/
structure MediaRow where
  id : Nat
  type : String
  url : String
  momentId : Nat
deriving DecidableEq

/-- A row of the `tags` table: columns `id, name`. -/
structure TagRow where
  id : Nat
  name : String
deriving DecidableEq

/-- A row of the `moments_tags` join table: columns `moment_id, tag_id`. -/
structure MomentTagRow where
  momentId : Nat
  tagId : Nat
deriving DecidableEq

/-- The relational database state the model layer queries. -/
structure DB where
  users : List UserRow
  moments : List MomentRow
  moment_media : List MediaRow
  tags : List TagRow
  moments_tags : List MomentTagRow
deriving DecidableEq

/-- Errors raised by the embedded code. `notFound`, `badRequest` and
`unauthorized` are the `expressError` classes; `queryError` is a database
query rejected by Postgres; `typeError` is a JavaScript TypeError raised by
dereferencing `undefined`. -/
inductive JsErr where
  | notFound
  | badRequest
  | unauthorized
  | queryError
  | typeError
deriving DecidableEq

/-- The `searchFilters` argument of `Moment.findAll`, fields in the order the
source destructures them (`const { tag, title, text, dateStart, dateEnd }`).
A JavaScript property that is `undefined` or absent is `none`. -/
structure SearchFilters where
  tag : Option String := none
  title : Option String := none
  text : Option String := none
  dateStart : Option Int := none
  dateEnd : Option Int := none
deriving DecidableEq

/-- Case-insensitive SQL LIKE matching (Postgres `ILIKE`), fuelled so that it
is structurally recursive and kernel-evaluable: `%` matches any sequence,
`_` any single character, a backslash escapes the following character, other
characters match case-insensitively. The fuel strictly exceeds the combined
length of pattern and subject on every call from `likeMatch`, and every
recursive call shrinks that combined length, so the 0-fuel branch is never
reached. -/
def likeMatchF : Nat → List Char → List Char → Bool
  | 0, _, _ => false
  | _ + 1, [], s => s.isEmpty
  | n + 1, '%' :: p, s =>
      likeMatchF n p s ||
        (match s with
         | [] => false
         | _ :: s1 => likeMatchF n ('%' :: p) s1)
  | n + 1, '_' :: p, s =>
      (match s with
       | [] => false
       | _ :: s1 => likeMatchF n p s1)
  | n + 1, '\\' :: c :: p, s =>
      (match s with
       | [] => false
       | d :: s1 => (c.toLower == d.toLower) && likeMatchF n p s1)
  | _ + 1, ['\\'], _ => false
  | n + 1, c :: p, s =>
      (match s with
       | [] => false
       | d :: s1 => (c.toLower == d.toLower) && likeMatchF n p s1)

/-- `likeMatch pat s` : does subject `s` match the ILIKE pattern `pat`? -/
def likeMatch (p s : List Char) : Bool :=
  likeMatchF (p.length + s.length + 1) p s

/-- Case-insensitive prefix test on character lists (spec-side helper used to
state what a plain "case-insensitive substring match" would be). -/
def headMatchesCI : List Char → List Char → Bool
  | [], _ => true
  | _ :: _, [] => false
  | c :: p, d :: s => (c.toLower == d.toLower) && headMatchesCI p s

/-- Case-insensitive substring test: the spec-side meaning of "case-insensitive
substring match", to compare with the source's ILIKE semantics. -/
def containsCI : List Char → List Char → Bool
  | p, [] => headMatchesCI p []
  | p, d :: s1 => headMatchesCI p (d :: s1) || containsCI p s1

/-- JavaScript truthiness test on Options: `if (x !== undefined)` guards in
`Moment.findAll` apply a filter exactly when the field is supplied. -/
def optTest : Option α → (α → Bool) → Bool
  | none, _ => true
  | some a, g => g a

/-- A tag `{id, name}` object as aggregated by `Moment.findAll` and selected
by `Moment.get`. -/
structure TagInfo where
  id : Nat
  name : String
deriving DecidableEq

/-- A media `{id, url, type}` object as selected by `Moment.get`. -/
structure MediaInfo where
  id : Nat
  url : String
  type : String
deriving DecidableEq

/-- The tag objects joined to a moment through `moments_tags` (the rows the
`LEFT JOIN moments_tags / LEFT JOIN tags` produces; a dangling `tag_id`
contributes a NULL `t.name`, which both the `json_agg ... FILTER (WHERE
t.name IS NOT NULL)` aggregate and the `= ANY (array_agg(t.name))` test
ignore, hence the `filterMap`). -/
def momentTagInfos (st : DB) (mid : Nat) : List TagInfo :=
  (st.moments_tags.filter (fun mt => mt.momentId == mid)).filterMap
    (fun mt => (st.tags.find? (fun t => t.id == mt.tagId)).map
      (fun t => { id := t.id, name := t.name }))

/-- A result row of `Moment.findAll`: `SELECT m.id, m.title, m.text, m.date,
... AS tags` (the moment's username is not selected). -/
structure FoundRow where
  id : Nat
  title : String
  text : String
  date : Int
  tags : List TagInfo
deriving DecidableEq

/-- The result row `Moment.findAll` produces for moment `m`. -/
def toRow (st : DB) (m : MomentRow) : FoundRow :=
  { id := m.id, title := m.title, text := m.text, date := m.date,
    tags := momentTagInfos st m.id }

/-- The ILIKE pattern `Moment.findAll` builds for a title/text filter:
`%` + value + `%`. -/
def wrapPercent (t : String) : String :=
  "%" ++ t ++ "%"

/-- The conjunction of WHERE/HAVING conditions `Moment.findAll` assembles for
one moment: `m.username = $k` (skipped when `username` is falsy, i.e. the
empty string), `m.title ILIKE $k`, `m.text ILIKE $k`, `m.date >= $k`,
`m.date <= $k`, and `HAVING $k = ANY (array_agg(t.name))`; each filter is
applied exactly when supplied. -/
def matchesFilters (st : DB) (username : String) (f : SearchFilters)
    (m : MomentRow) : Bool :=
  (if username = "" then true else m.username == username)
  && optTest f.title (fun t => likeMatch (wrapPercent t).data m.title.data)
  && optTest f.text (fun t => likeMatch (wrapPercent t).data m.text.data)
  && optTest f.dateStart (fun d => decide (d ≤ m.date))
  && optTest f.dateEnd (fun d => decide (m.date ≤ d))
  && optTest f.tag (fun tg => (momentTagInfos st m.id).any (fun ti => ti.name == tg))

/-- `ORDER BY m.date DESC`: row `a` may precede row `b` when `a.date` is the
larger. -/
def dateDesc (a b : FoundRow) : Prop :=
  b.date ≤ a.date

instance : DecidableRel dateDesc := fun a b => Int.decLe b.date a.date

instance : IsTotal FoundRow dateDesc :=
  ⟨fun a b => Int.le_total b.date a.date⟩

instance : IsTrans FoundRow dateDesc :=
  ⟨fun _ _ _ hab hbc => le_trans hbc hab⟩

/-- `Moment.findAll` (src/backend/models/moment.js:41-112), result semantics:
first a `SELECT username FROM users WHERE username = $1` pre-check that
throws `NotFoundError` when the user row is absent, then the dynamically
assembled filtered search over `moments` left-joined with its tags, grouped
per moment, ordered by `m.date DESC`. -/
def findAll (st : DB) (username : String) (f : SearchFilters) :
    Except JsErr (List FoundRow) :=
  if (st.users.find? (fun u => u.username == username)).isNone then
    .error .notFound
  else
    .ok (List.insertionSort dateDesc
      ((st.moments.filter (matchesFilters st username f)).map (toRow st)))

/-- A value pushed onto `queryValues` and handed to the database driver's
parameter array: a string or a date. -/
inductive SqlValue where
  | s : String → SqlValue
  | d : Int → SqlValue
deriving DecidableEq

/-- The placeholder text `$k`. -/
def placeholderStr (k : Nat) : String :=
  "$" ++ toString k

/-- The mutable state of `Moment.findAll`'s query builder: the
`whereExpressions` and `queryValues` arrays. -/
structure QState where
  whereExpressions : List String := []
  queryValues : List SqlValue := []
deriving DecidableEq

/-- One `queryValues.push(v); whereExpressions.push(mk($queryValues.length))`
step of the builder: the clause text references the position the value was
just pushed to. -/
def QState.push (q : QState) (mk : String → String) (v : SqlValue) : QState :=
  let vals := q.queryValues ++ [v]
  { whereExpressions := q.whereExpressions ++ [mk (placeholderStr vals.length)],
    queryValues := vals }

/-- The fixed SELECT/JOIN head of `Moment.findAll`'s query (source template
literal with whitespace normalized to single spaces). -/
def findAllSelect : String :=
  "SELECT m.id, m.title, m.text, m.date, COALESCE(json_agg(json_build_object(\x27id\x27, t.id, \x27name\x27, t.name)) FILTER (WHERE t.name IS NOT NULL), \x27[]\x27) AS tags FROM moments m LEFT JOIN moments_tags mt ON mt.moment_id = m.id LEFT JOIN tags t ON t.id = mt.tag_id "

/-- `Moment.findAll` (src/backend/models/moment.js:51-104), query-text
semantics: the assembled SQL string and the parameter array, built exactly as
the source does — conditional pushes for `username` (skipped when falsy),
`title`, `text`, `dateStart`, `dateEnd`, in that order; the WHERE clauses
joined with AND; `GROUP BY m.id`; the `tag` value pushed after the WHERE
clauses with its `HAVING` placeholder; `ORDER BY m.date DESC`. -/
def buildFindAllQuery (username : String) (f : SearchFilters) :
    String × List SqlValue :=
  let q0 : QState := {}
  let q1 := if username = "" then q0 else
    q0.push (fun p => "m.username = " ++ p) (.s username)
  let q2 := match f.title with
    | none => q1
    | some t => q1.push (fun p => "m.title ILIKE " ++ p) (.s (wrapPercent t))
  let q3 := match f.text with
    | none => q2
    | some t => q2.push (fun p => "m.text ILIKE " ++ p) (.s (wrapPercent t))
  let q4 := match f.dateStart with
    | none => q3
    | some d => q3.push (fun p => "m.date >= " ++ p) (.d d)
  let q5 := match f.dateEnd with
    | none => q4
    | some d => q4.push (fun p => "m.date <= " ++ p) (.d d)
  let whereClause :=
    if q5.whereExpressions.length > 0 then
      " WHERE " ++ String.intercalate " AND " q5.whereExpressions
    else ""
  let base := findAllSelect ++ whereClause ++ " GROUP BY m.id"
  let withHaving := match f.tag with
    | none => (base, q5.queryValues)
    | some tg =>
        let vals := q5.queryValues ++ [SqlValue.s tg]
        (base ++ " HAVING " ++ placeholderStr vals.length
          ++ " = ANY (array_agg(t.name)) ", vals)
  (withHaving.1 ++ " ORDER BY m.date DESC", withHaving.2)

/-- Scanner extracting, in order, the numbers of the `$k` placeholders that
occur in a query string (each `$` starts a number read from the following
digit run). -/
def scanPH : List Char → Option Nat → List Nat
  | [], none => []
  | [], some n => [n]
  | c :: rest, none =>
      if c == '$' then scanPH rest (some 0) else scanPH rest none
  | c :: rest, some n =>
      if c.isDigit then scanPH rest (some (10 * n + (c.toNat - 48)))
      else if c == '$' then n :: scanPH rest (some 0)
      else n :: scanPH rest none

/-- The `$k` placeholder numbers occurring in a query string, in textual
order. -/
def placeholdersOf (s : String) : List Nat :=
  scanPH s.data none

/-- The result of `Moment.get`: the moment row plus its aggregated media and
tag objects. -/
structure GetResult where
  id : Nat
  title : String
  text : String
  date : Int
  username : String
  media : List MediaInfo
  tags : List TagInfo
deriving DecidableEq

/-- `Moment.get` (src/backend/models/moment.js:122-159): select the moment
row by id, throw `NotFoundError` when absent, then attach its media and tag
rows. -/
def get (st : DB) (id : Nat) : Except JsErr GetResult :=
  match st.moments.find? (fun m => m.id == id) with
  | none => .error .notFound
  | some m =>
      .ok { id := m.id, title := m.title, text := m.text, date := m.date,
            username := m.username,
            media := (st.moment_media.filter (fun md => md.momentId == m.id)).map
              (fun md => { id := md.id, url := md.url, type := md.type }),
            tags := momentTagInfos st m.id }

/-- The partial-update payload of `Moment.update`: any subset of
`{title, text, date}`. -/
structure UpdateData where
  title : Option String := none
  text : Option String := none
  date : Option Int := none
deriving DecidableEq

/-- Does the payload supply no field at all? -/
def UpdateData.isEmpty (d : UpdateData) : Bool :=
  d.title.isNone && d.text.isNone && d.date.isNone

/-- Overwrite exactly the supplied fields of a moment row (the effect of the
`SET` clause `sqlForPartialUpdate` assembles from the payload). -/
def applyUpdate (d : UpdateData) (m : MomentRow) : MomentRow :=
  { m with title := d.title.getD m.title, text := d.text.getD m.text,
           date := d.date.getD m.date }

/-- `Moment.update` (src/backend/models/moment.js:174-192).

Modelled from the spec: `sqlForPartialUpdate` lives in
`src/backend/helpers/sql.js`, which is not among the provided sources; the
spec describes it only as a "straightforward string-assembly utility" for
partial updates. It is modelled as assembling one `"col"=$i` SET fragment
per supplied field with the values collected in order, and — following the
conventional implementation of that helper and the spec's `BadRequestError`
error taxonomy — as raising `BadRequestError` when the payload supplies no
field. With at least one field supplied, the UPDATE rewrites every moments
row matching the id, `RETURNING` the updated row, and `Moment.update` throws
`NotFoundError` exactly when no row matched. -/
def update (st : DB) (id : Nat) (d : UpdateData) :
    Except JsErr (DB × MomentRow) :=
  if d.isEmpty then .error .badRequest
  else
    match st.moments.find? (fun m => m.id == id) with
    | none => .error .notFound
    | some m =>
        let moments1 := st.moments.map
          (fun x => if x.id = id then applyUpdate d x else x)
        .ok ({ st with moments := moments1 }, applyUpdate d m)

/-- `Moment.remove` (src/backend/models/moment.js:199-210): `DELETE FROM
moments WHERE id = $1 RETURNING id`; throws `NotFoundError` exactly when no
row was deleted. -/
def remove (st : DB) (id : Nat) : Except JsErr DB :=
  if (st.moments.find? (fun m => m.id == id)).isNone then .error .notFound
  else .ok { st with moments := st.moments.filter (fun m => m.id != id) }

/-- The `{type, url}` payload of `Moment.addMedia`. -/
structure MediaInput where
  type : String
  url : String
deriving DecidableEq

/-- `Moment.addMedia` (src/backend/models/moment.js:218-227). The source runs
`await db.query(INSERT INTO moment_media ... RETURNING id, type, url,
moment_id AS \x27momentId\x27)` without binding the result, then reads
`results.rows[0]`. Postgres rejects the single-quoted column alias as a
syntax error, so `db.query` rejects and the await throws before any row is
inserted; even if the query parsed, `results` is an undeclared identifier and
reading it would raise a ReferenceError. Either way the call always throws
and never returns a media row, so it is embedded as the query error with the
database unchanged. -/
def addMedia (_st : DB) (_momentId : Nat) (_d : MediaInput) :
    Except JsErr (DB × MediaRow) :=
  .error .queryError

/-- `Moment.removeMedia` (src/backend/models/moment.js:233-240): `DELETE FROM
moment_media WHERE id = $1` with no RETURNING and no row-count check — it
deletes the matching row when one exists and resolves either way. -/
def removeMedia (st : DB) (momentMediaId : Nat) : Except JsErr DB :=
  let media1 := st.moment_media.filter (fun md => md.id != momentMediaId)
  .ok { st with moment_media := media1 }

/-- `Moment.applyTag` (src/backend/models/moment.js:246-255): insert a
`moments_tags` row and return its `{moment_id, tag_id}`. -/
def applyTag (st : DB) (momentId tagId : Nat) :
    Except JsErr (DB × MomentTagRow) :=
  let row : MomentTagRow := { momentId := momentId, tagId := tagId }
  .ok ({ st with moments_tags := st.moments_tags ++ [row] }, row)

/-- `Moment.removeTag` (src/backend/models/moment.js:261-268): `DELETE FROM
moments_tags WHERE moment_id = $1 AND tag_id = $2` with no row-count check —
it deletes the matching row when one exists and resolves either way. -/
def removeTag (st : DB) (momentId tagId : Nat) : Except JsErr DB :=
  let mts1 := st.moments_tags.filter
    (fun mt => !(mt.momentId == momentId && mt.tagId == tagId))
  .ok { st with moments_tags := mts1 }

/-- A verified JWT payload as the middleware uses it: the `username` signed
into the token. -/
structure Payload where
  username : String
deriving DecidableEq

/-- An Express request as the auth middleware sees it: the `Authorization`
header (requests always carry a headers object, so only the header itself is
optional), the `req.user` slot, and the `username` route parameter and body
property (`none` when absent/undefined). -/
structure Request where
  authorization : Option String := none
  user : Option Payload := none
  paramsUsername : Option String := none
  bodyUsername : Option String := none
deriving DecidableEq

/-- The effect of `authHeader.replace(/^[Bb]earer /, "")`: drop the first 7
characters exactly when they are `Bearer ` or `bearer ` (the regex is
case-insensitive in its first letter only). -/
def stripBearer (h : String) : String :=
  if h.data.take 7 = "Bearer ".data then { data := h.data.drop 7 }
  else if h.data.take 7 = "bearer ".data then { data := h.data.drop 7 }
  else h

/-- JavaScript `String.prototype.trim`: drop whitespace from both ends. -/
def jsTrim (s : String) : String :=
  { data := ((s.data.dropWhile Char.isWhitespace).reverse.dropWhile
      Char.isWhitespace).reverse }

/-- `authenticateJWT` (src/backend/middleware/auth.js:17-28), parameterized
by `verify`, the action of `jwt.verify(·, SECRET_KEY)`: `some payload` when
the token verifies against the shared secret, `none` when verification
throws. When the Authorization header is present the middleware strips the
`[Bb]earer ` prefix, trims, and verifies; on success the payload is stored on
`req.user`; a missing header or failed verification leaves the request
untouched (the catch block just calls `next()`). -/
def authenticateJWT (verify : String → Option Payload) (req : Request) :
    Request :=
  match req.authorization with
  | none => req
  | some h =>
      match verify (jsTrim (stripBearer h)) with
      | some p => { req with user := some p }
      | none => req

/-- The JavaScript `req.params.username || req.body.username` expression:
truthiness, not mere presence — an empty-string route parameter falls through
to the body property. -/
def jsOrUsername (p b : Option String) : Option String :=
  match p with
  | some s => if s = "" then b else some s
  | none => b

/-- `ensureCorrectUser` (src/backend/middleware/auth.js:51-63): raise
`UnauthorizedError` unless `req.user` is set and its username strictly equals
`req.params.username || req.body.username`; otherwise pass the request on
unchanged. -/
def ensureCorrectUser (req : Request) : Except JsErr Request :=
  match req.user, jsOrUsername req.paramsUsername req.bodyUsername with
  | some u, some t => if u.username = t then .ok req else .error .unauthorized
  | some _, none => .error .unauthorized
  | none, _ => .error .unauthorized

/-- `ensureLoggedIn` (src/backend/middleware/auth.js:35-43): raise
`UnauthorizedError` unless `req.user && req.user.username` is truthy. -/
def ensureLoggedIn (req : Request) : Except JsErr Request :=
  match req.user with
  | some u => if u.username = "" then .error .unauthorized else .ok req
  | none => .error .unauthorized

/-- The `message` property of the server's serialized error body: the Express
error middleware sends either a single string or an array of strings
(`Array.isArray` distinguishes the two). -/
inductive Messages where
  | one : String → Messages
  | many : List String → Messages
deriving DecidableEq

/-- The `error` object of the server's JSON error body. -/
structure ErrorBody where
  message : Messages
deriving DecidableEq

/-- `err.response.data` of a failed axios call that got a server reply. -/
structure ResponseData where
  error : ErrorBody
deriving DecidableEq

/-- `err.response` of a failed axios call: the server's reply. -/
structure AxiosResponse where
  data : ResponseData
deriving DecidableEq

/-- An axios rejection: `response` is `none` when the request failed without
any server reply (network error, timeout), in which case `err.response` is
`undefined`. -/
structure AxiosError where
  response : Option AxiosResponse
deriving DecidableEq

/-- What the frontend `request` helper throws to its caller on failure. -/
inductive Thrown where
  | messages : List String → Thrown
  | jsTypeError : Thrown
deriving DecidableEq

/-- The catch block of `request` (src/wonder-journal/src/api.js:32-36): it
reads `err.response.data.error.message` — when `err.response` is `undefined`
that property access itself raises a TypeError — and otherwise throws the
message as-is when it is an array, wrapped in a one-element array when not. -/
def requestCatch (err : AxiosError) : Thrown :=
  match err.response with
  | none => .jsTypeError
  | some r =>
      match r.data.error.message with
      | .many l => .messages l
      | .one s => .messages [s]

/-- The frontend `request` helper (src/wonder-journal/src/api.js:22-37),
abstracted over the axios outcome: a fulfilled call returns `data`, a
rejected call throws what the catch block produces. -/
def request (outcome : Except AxiosError α) : Except Thrown α :=
  match outcome with
  | .ok v => .ok v
  | .error e => .error (requestCatch e)

/-! ### Concrete databases and requests for witnesses and counterexamples -/

/-- A one-user, one-moment database; the moment's title is `axb`. -/
def dbA : DB :=
  { users := [{ username := "u" }],
    moments := [{ id := 1, title := "axb", text := "hello", date := 5,
                  username := "u" }],
    moment_media := [], tags := [], moments_tags := [] }

/-- A richer database: two users, three moments, one media row, one tag
applied to moment 2. -/
def dbB : DB :=
  { users := [{ username := "u" }, { username := "v" }],
    moments := [{ id := 1, title := "A", text := "p", date := 5, username := "u" },
                { id := 2, title := "B", text := "q", date := 9, username := "u" },
                { id := 3, title := "C", text := "r", date := 7, username := "v" }],
    moment_media := [{ id := 4, type := "image", url := "h", momentId := 1 }],
    tags := [{ id := 10, name := "fun" }],
    moments_tags := [{ momentId := 2, tagId := 10 }] }

/-- A database whose `users` table contains the empty username alongside
`bob`; the only moment belongs to `bob`. -/
def dbC : DB :=
  { users := [{ username := "" }, { username := "bob" }],
    moments := [{ id := 7, title := "t", text := "x", date := 3,
                  username := "bob" }],
    moment_media := [], tags := [], moments_tags := [] }

/-- A `jwt.verify(·, SECRET_KEY)` oracle accepting exactly the token string
`tok`, whose payload names `alice`. -/
def verifyTok (s : String) : Option Payload :=
  if s = "tok" then some { username := "alice" } else none

/-! ### Claim theorems -/

/-- C4: the claim says `Moment.addMedia` inserts a media row and returns it
as `{id, type, url, momentId}` without raising an error. The code cannot do
that: it never binds the `db.query` result yet reads `results.rows[0]`, and
the query's single-quoted alias `AS \x27momentId\x27` is itself rejected by
Postgres, so every call throws. Evaluating the embedded code at the
documented input shows the error. -/
theorem C4_addMedia_always_throws :
    addMedia dbA 1 { type := "image", url := "http-pic" }
      = Except.error JsErr.queryError := rfl

/-- C9: every list `Moment.findAll` returns is sorted by the moment's date in
descending order (newest first) — `ORDER BY m.date DESC`. -/
theorem C9_findAll_sorted_by_date_desc (st : DB) (u : String)
    (f : SearchFilters) (l : List FoundRow) (h : findAll st u f = Except.ok l) :
    l.Sorted dateDesc := by
  unfold findAll at h
  by_cases hc : (st.users.find? (fun x => x.username == u)).isNone
  · simp [hc] at h
  · simp only [hc, if_false] at h
    obtain rfl : List.insertionSort dateDesc
        ((st.moments.filter (matchesFilters st u f)).map (toRow st)) = l :=
      by injection h
    exact List.sorted_insertionSort dateDesc _

/-- C9 witness: the theorem applied to a concrete database. -/
theorem C9_witness :
    findAll dbB "u" {} = Except.ok
      [{ id := 2, title := "B", text := "q", date := 9,
         tags := [{ id := 10, name := "fun" }] },
       { id := 1, title := "A", text := "p", date := 5, tags := [] }]
    ∧ List.Sorted dateDesc
      [{ id := 2, title := "B", text := "q", date := 9,
         tags := [{ id := 10, name := "fun" }] },
       { id := 1, title := "A", text := "p", date := 5, tags := [] }] :=
  ⟨by decide, C9_findAll_sorted_by_date_desc dbB "u" {} _ (by decide)⟩

/-- C10: `Moment.removeMedia` and `Moment.removeTag` never throw for a
nonexistent target: for every `momentMediaId` (and `momentId`/`tagId` pair)
they succeed, deleting exactly the matching rows and touching nothing else —
unlike `Moment.remove`, which raises `NotFoundError` when no row was
deleted. -/
theorem C10_removeMedia_removeTag_never_throw (st : DB)
    (mmId mId tId rId : Nat) :
    (∃ st', removeMedia st mmId = Except.ok st'
      ∧ st'.moment_media = st.moment_media.filter (fun md => md.id != mmId)
      ∧ st'.users = st.users ∧ st'.moments = st.moments
      ∧ st'.tags = st.tags ∧ st'.moments_tags = st.moments_tags)
    ∧ (∃ st', removeTag st mId tId = Except.ok st'
      ∧ st'.moments_tags = st.moments_tags.filter
          (fun mt => !(mt.momentId == mId && mt.tagId == tId))
      ∧ st'.users = st.users ∧ st'.moments = st.moments
      ∧ st'.moment_media = st.moment_media ∧ st'.tags = st.tags)
    ∧ ((¬ ∃ m ∈ st.moments, m.id = rId) →
        remove st rId = Except.error JsErr.notFound) := by
  refine ⟨⟨_, rfl, rfl, rfl, rfl, rfl, rfl⟩,
          ⟨_, rfl, rfl, rfl, rfl, rfl, rfl⟩, fun h => ?_⟩
  have hfind : st.moments.find? (fun m => m.id == rId) = none := by
    rw [List.find?_eq_none]
    intro m hm
    simp only [beq_iff_eq]
    exact fun he => h ⟨m, hm, he⟩
  simp [remove, hfind]

/-- C10 witness: the theorem applied to a concrete database, deleting a
media id and a tag pair that do not exist, and removing a missing moment. -/
theorem C10_witness :
    (∃ st', removeMedia dbB 99 = Except.ok st'
      ∧ st'.moment_media = dbB.moment_media.filter (fun md => md.id != 99)
      ∧ st'.users = dbB.users ∧ st'.moments = dbB.moments
      ∧ st'.tags = dbB.tags ∧ st'.moments_tags = dbB.moments_tags)
    ∧ (∃ st', removeTag dbB 2 77 = Except.ok st'
      ∧ st'.moments_tags = dbB.moments_tags.filter
          (fun mt => !(mt.momentId == 2 && mt.tagId == 77))
      ∧ st'.users = dbB.users ∧ st'.moments = dbB.moments
      ∧ st'.moment_media = dbB.moment_media ∧ st'.tags = dbB.tags)
    ∧ remove dbB 42 = Except.error JsErr.notFound :=
  ⟨(C10_removeMedia_removeTag_never_throw dbB 99 2 77 42).1,
   (C10_removeMedia_removeTag_never_throw dbB 99 2 77 42).2.1,
   (C10_removeMedia_removeTag_never_throw dbB 99 2 77 42).2.2 (by decide)⟩

/-- `find?` returns `none` exactly when no element satisfies the predicate. -/
lemma find?_none_iff_not_exists {α : Type} (p : α → Bool) (l : List α) :
    l.find? p = none ↔ ¬ ∃ x ∈ l, p x = true := by
  rw [List.find?_eq_none]
  simp

/-- C3: each lookup throws `NotFoundError` exactly when its key is absent:
`Moment.get`, `Moment.update` (for a payload supplying at least one field —
the partial-update helper is spec-modelled, see `update`) and `Moment.remove`
iff no moment row has the id, and `Moment.findAll` iff no users row has the
username; when the key exists no `NotFoundError` is thrown. -/
theorem C3_notFound_iff_key_absent (st : DB) (id : Nat) (d : UpdateData)
    (u : String) (f : SearchFilters) :
    ((get st id = Except.error JsErr.notFound) ↔ ¬ ∃ m ∈ st.moments, m.id = id)
    ∧ (d.isEmpty = false →
        ((update st id d = Except.error JsErr.notFound) ↔
          ¬ ∃ m ∈ st.moments, m.id = id))
    ∧ ((remove st id = Except.error JsErr.notFound) ↔
        ¬ ∃ m ∈ st.moments, m.id = id)
    ∧ ((findAll st u f = Except.error JsErr.notFound) ↔
        ¬ ∃ w ∈ st.users, w.username = u) := by
  have hmom : (st.moments.find? (fun m => m.id == id) = none) ↔
      ¬ ∃ m ∈ st.moments, m.id = id := by
    rw [find?_none_iff_not_exists]
    simp
  have husr : (st.users.find? (fun w => w.username == u) = none) ↔
      ¬ ∃ w ∈ st.users, w.username = u := by
    rw [find?_none_iff_not_exists]
    simp
  refine ⟨?_, fun hne => ?_, ?_, ?_⟩
  · rw [← hmom]
    cases hfind : st.moments.find? (fun m => m.id == id) <;> simp [get, hfind]
  · rw [← hmom]
    cases hfind : st.moments.find? (fun m => m.id == id) <;>
      simp [update, hne, hfind]
  · rw [← hmom]
    cases hfind : st.moments.find? (fun m => m.id == id) <;>
      simp [remove, hfind]
  · rw [← husr]
    cases hfind : st.users.find? (fun w => w.username == u) <;>
      simp [findAll, hfind]

/-- C3 witness: the theorem at a concrete database, an absent moment id, a
nonempty payload and an absent username. -/
theorem C3_witness :
    ((get dbB 42 = Except.error JsErr.notFound) ↔
      ¬ ∃ m ∈ dbB.moments, m.id = 42)
    ∧ ((update dbB 42 { title := some "Z" } = Except.error JsErr.notFound) ↔
      ¬ ∃ m ∈ dbB.moments, m.id = 42)
    ∧ ((remove dbB 42 = Except.error JsErr.notFound) ↔
      ¬ ∃ m ∈ dbB.moments, m.id = 42)
    ∧ ((findAll dbB "w" {} = Except.error JsErr.notFound) ↔
      ¬ ∃ w ∈ dbB.users, w.username = "w") :=
  ⟨(C3_notFound_iff_key_absent dbB 42 { title := some "Z" } "w" {}).1,
   (C3_notFound_iff_key_absent dbB 42 { title := some "Z" } "w" {}).2.1
     (by decide),
   (C3_notFound_iff_key_absent dbB 42 { title := some "Z" } "w" {}).2.2.1,
   (C3_notFound_iff_key_absent dbB 42 { title := some "Z" } "w" {}).2.2.2⟩

/-- C7: for every moment id present in the database and every nonempty
payload drawn from `{title, text, date}` (the partial-update helper is
spec-modelled, see `update`), `Moment.update` changes exactly the supplied
fields of that moment, leaves its other fields, every other moment and every
other table unchanged, and returns the updated row. -/
theorem C7_update_partial_frame (st : DB) (id : Nat) (d : UpdateData)
    (m : MomentRow) (hne : d.isEmpty = false)
    (hfind : st.moments.find? (fun x => x.id == id) = some m) :
    ∃ st', update st id d = Except.ok (st', applyUpdate d m)
      ∧ (applyUpdate d m).id = m.id
      ∧ (applyUpdate d m).username = m.username
      ∧ (d.title = none → (applyUpdate d m).title = m.title)
      ∧ (∀ s, d.title = some s → (applyUpdate d m).title = s)
      ∧ (d.text = none → (applyUpdate d m).text = m.text)
      ∧ (∀ s, d.text = some s → (applyUpdate d m).text = s)
      ∧ (d.date = none → (applyUpdate d m).date = m.date)
      ∧ (∀ v, d.date = some v → (applyUpdate d m).date = v)
      ∧ st'.users = st.users ∧ st'.moment_media = st.moment_media
      ∧ st'.tags = st.tags ∧ st'.moments_tags = st.moments_tags
      ∧ st'.moments.length = st.moments.length
      ∧ (∀ i (h1 : i < st.moments.length) (h2 : i < st'.moments.length),
          ((st.moments.get ⟨i, h1⟩).id ≠ id →
            st'.moments.get ⟨i, h2⟩ = st.moments.get ⟨i, h1⟩)
          ∧ ((st.moments.get ⟨i, h1⟩).id = id →
            st'.moments.get ⟨i, h2⟩ = applyUpdate d (st.moments.get ⟨i, h1⟩))) := by
  refine ⟨{ st with moments := st.moments.map (fun x => if x.id = id then applyUpdate d x else x) }, ?_, rfl, rfl,
    ?_, ?_, ?_, ?_, ?_, ?_, rfl, rfl, rfl, rfl, List.length_map _ _, ?_⟩
  · simp [update, hne, hfind]
  · intro h
    simp [applyUpdate, h]
  · intro s h
    simp [applyUpdate, h]
  · intro h
    simp [applyUpdate, h]
  · intro s h
    simp [applyUpdate, h]
  · intro h
    simp [applyUpdate, h]
  · intro v h
    simp [applyUpdate, h]
  · intro i h1 h2
    constructor
    · intro hid
      have hid2 : ¬ st.moments[i].id = id := by simpa using hid
      simp [List.get_eq_getElem, List.getElem_map, hid2]
    · intro hid
      have hid2 : st.moments[i].id = id := by simpa using hid
      simp [List.get_eq_getElem, List.getElem_map, hid2]

/-- C7 witness: the theorem at a concrete database, updating the title of
moment 1 of `dbB`. -/
theorem C7_witness :
    UpdateData.isEmpty { title := some "Z" } = false
    ∧ dbB.moments.find? (fun x => x.id == 1)
        = some { id := 1, title := "A", text := "p", date := 5, username := "u" }
    ∧ ∃ st', update dbB 1 { title := some "Z" }
        = Except.ok (st', applyUpdate { title := some "Z" }
            { id := 1, title := "A", text := "p", date := 5, username := "u" })
      ∧ (applyUpdate { title := some "Z" }
          { id := 1, title := "A", text := "p", date := 5, username := "u" }).title = "Z"
      ∧ st'.moments.length = dbB.moments.length :=
  ⟨by decide, by decide, by
    obtain ⟨st', h1, _, _, _, ht, _, _, _, _, _, _, _, _, hlen, _⟩ :=
      C7_update_partial_frame dbB 1 { title := some "Z" }
        { id := 1, title := "A", text := "p", date := 5, username := "u" }
        (by decide) (by decide)
    exact ⟨st', h1, ht "Z" rfl, hlen⟩⟩

/-- A request whose route parameter `username` is present but empty, whose
body `username` is `bob`, and whose authenticated user is `bob`. -/
def reqEmptyParam : Request :=
  { user := some { username := "bob" }, paramsUsername := some "", bodyUsername := some "bob" }

/-- C2 counterexample: the claim says the compared username is taken from the
route parameter whenever it is present. Here the route parameter is present
but empty (`some ""`), the body says `bob` and the authenticated user is
`bob`: the claim demands `UnauthorizedError` (authenticated `bob` differs
from the parameter `""`), but the source evaluates
`req.params.username || req.body.username` by truthiness, falls through to
the body, and lets the request pass. -/
theorem C2_counterexample :
    ensureCorrectUser reqEmptyParam = Except.ok reqEmptyParam
    ∧ reqEmptyParam.paramsUsername = some ""
    ∧ reqEmptyParam.user = some { username := "bob" }
    ∧ decide (("bob" : String) = "") = false := by
  refine ⟨rfl, rfl, rfl, rfl⟩

/-- C2 (amended): `ensureCorrectUser` raises `UnauthorizedError` if and only
if there is no authenticated user or the authenticated user's username
differs from the username taken from the route parameter if present and
nonempty, otherwise from the request body (the JavaScript `||` falls through
on an empty string); when it does not raise, the request proceeds
unchanged. -/
theorem C2_ensureCorrectUser (req : Request) :
    (ensureCorrectUser req = Except.ok req
      ∨ ensureCorrectUser req = Except.error JsErr.unauthorized)
    ∧ (ensureCorrectUser req = Except.error JsErr.unauthorized ↔
        ¬ ∃ u, req.user = some u
          ∧ jsOrUsername req.paramsUsername req.bodyUsername
              = some u.username) := by
  rcases hu : req.user with _ | u
  · simp [ensureCorrectUser, hu]
  · rcases ht : jsOrUsername req.paramsUsername req.bodyUsername with _ | t
    · simp [ensureCorrectUser, hu, ht]
    · by_cases heq : u.username = t
      · simp [ensureCorrectUser, hu, ht, heq]
      · simp [ensureCorrectUser, hu, ht, heq]
        exact fun h => heq h.symm

/-- C6 counterexample: the claim says the `Bearer ` prefix is stripped
case-insensitively. With the header `BEARER tok`, a verifier that accepts
exactly the token `tok`, and no user on the request, the claim demands that
the payload be stored on `req.user`; the source regex `/^[Bb]earer /` only
matches a lowercase `earer` tail, so nothing is stripped, verification of
the full header fails, and the request is left unchanged with `req.user`
unset. -/
theorem C6_counterexample :
    authenticateJWT verifyTok { authorization := some "BEARER tok" }
      = { authorization := some "BEARER tok" }
    ∧ verifyTok "tok" = some { username := "alice" }
    ∧ ({ authorization := some "BEARER tok" } : Request).user = none := by
  refine ⟨by decide, by decide, rfl⟩

/-- C6 (amended): `authenticateJWT` strips an optional `Bearer ` or
`bearer ` prefix (the regex is case-insensitive in its first letter only)
from the Authorization header, trims the remainder, and verifies it against
the shared secret; the token payload is stored on `req.user` exactly when
the header is present and verification succeeds, and a missing or invalid
token is never an error — the request continues unchanged. -/
theorem C6_authenticateJWT (verify : String → Option Payload) (req : Request) :
    (req.authorization = none → authenticateJWT verify req = req)
    ∧ (∀ h p, req.authorization = some h →
        verify (jsTrim (stripBearer h)) = some p →
        authenticateJWT verify req = { req with user := some p })
    ∧ (∀ h, req.authorization = some h →
        verify (jsTrim (stripBearer h)) = none →
        authenticateJWT verify req = req) := by
  refine ⟨fun hnone => ?_, fun h p hsome hver => ?_, fun h hsome hver => ?_⟩
  · simp [authenticateJWT, hnone]
  · simp [authenticateJWT, hsome, hver]
  · simp [authenticateJWT, hsome, hver]

/-- C6 witness: the amended theorem at a concrete request whose header does
carry the lowercase prefix and a valid token. -/
theorem C6_witness :
    verifyTok (jsTrim (stripBearer "Bearer tok")) = some { username := "alice" }
    ∧ authenticateJWT verifyTok { authorization := some "Bearer tok" }
      = { authorization := some "Bearer tok",
          user := some { username := "alice" } } :=
  ⟨by decide,
   (C6_authenticateJWT verifyTok { authorization := some "Bearer tok" }).2.1
     "Bearer tok" { username := "alice" } rfl (by decide)⟩

/-- C8 counterexample: the claim says every failed API request throws an
array of error messages to the caller. A request that fails with no server
reply (axios network error: `err.response` is `undefined`) makes the catch
block's read of `err.response.data` itself raise a TypeError, which is what
propagates to the caller — not an array. -/
theorem C8_counterexample :
    request (Except.error { response := none } : Except AxiosError Unit)
      = Except.error Thrown.jsTypeError := rfl

/-- C8 (amended): for every failed API request to which the server replied
(`err.response` present), the value thrown to the caller is an array of
error messages — the server's error message as-is when it is already an
array, wrapped in a one-element array otherwise; when the failure has no
server reply, the TypeError raised by reading `err.response.data` propagates
instead. -/
theorem C8_request_error_array (α : Type) (out : Except AxiosError α)
    (e : AxiosError) (r : AxiosResponse) (hout : out = Except.error e)
    (hr : e.response = some r) :
    (∀ l, r.data.error.message = Messages.many l →
      request out = Except.error (Thrown.messages l))
    ∧ (∀ s, r.data.error.message = Messages.one s →
      request out = Except.error (Thrown.messages [s])) := by
  subst hout
  refine ⟨fun l hl => ?_, fun s hs => ?_⟩
  · simp [request, requestCatch, hr, hl]
  · simp [request, requestCatch, hr, hs]

/-- C8 witness: the amended theorem at concrete server error bodies, one
carrying an array of messages and one carrying a single string. -/
theorem C8_witness :
    request (Except.error { response := some { data := { error := { message := Messages.many ["a", "b"] } } } } : Except AxiosError Unit)
      = Except.error (Thrown.messages ["a", "b"])
    ∧ request (Except.error { response := some { data := { error := { message := Messages.one "oops" } } } } : Except AxiosError Unit)
      = Except.error (Thrown.messages ["oops"]) :=
  ⟨(C8_request_error_array Unit _ _
      { data := { error := { message := Messages.many ["a", "b"] } } }
      rfl rfl).1 ["a", "b"] rfl,
   (C8_request_error_array Unit _ _
      { data := { error := { message := Messages.one "oops" } } }
      rfl rfl).2 "oops" rfl⟩

/-- `optTest` succeeds exactly when the test holds for whatever value is
supplied. -/
lemma optTest_eq_true_iff {α : Type} (o : Option α) (g : α → Bool) :
    optTest o g = true ↔ ∀ a, o = some a → g a = true := by
  cases o <;> simp [optTest]

/-- The WHERE/HAVING conjunction of `Moment.findAll`, in propositional form,
for a nonempty username. -/
lemma matchesFilters_iff (st : DB) (u : String) (f : SearchFilters)
    (m : MomentRow) (hu : u ≠ "") :
    matchesFilters st u f m = true ↔
      m.username = u
      ∧ (∀ t, f.title = some t →
          likeMatch (wrapPercent t).data m.title.data = true)
      ∧ (∀ t, f.text = some t →
          likeMatch (wrapPercent t).data m.text.data = true)
      ∧ (∀ dv, f.dateStart = some dv → dv ≤ m.date)
      ∧ (∀ dv, f.dateEnd = some dv → m.date ≤ dv)
      ∧ (∀ tg, f.tag = some tg →
          tg ∈ (momentTagInfos st m.id).map TagInfo.name) := by
  unfold matchesFilters
  simp only [Bool.and_eq_true, optTest_eq_true_iff, if_neg hu, beq_iff_eq,
    decide_eq_true_eq, List.any_eq_true, List.mem_map]
  constructor
  · rintro ⟨⟨⟨⟨⟨h1, h2⟩, h3⟩, h4⟩, h5⟩, h6⟩
    exact ⟨h1, h2, h3, h4, h5, h6⟩
  · rintro ⟨h1, h2, h3, h4, h5, h6⟩
    exact ⟨⟨⟨⟨⟨h1, h2⟩, h3⟩, h4⟩, h5⟩, h6⟩

/-- C1 counterexample: the claim says title filters match as case-insensitive
substring matches and that `findAll` returns exactly the user's moments.
Both fail on the code. (i) With the title filter `a_b`, the moment titled
`axb` is returned although `a_b` is not a case-insensitive substring of
`axb` — the filter value is pasted into an ILIKE pattern, so `_` acts as a
wildcard. (ii) When the `users` table contains the empty username, the
falsy-username guard skips the `m.username = $1` clause and
`findAll st "" {}` returns `bob`'s moment, which is not user `""`'s. -/
theorem C1_counterexample :
    findAll dbA "u" { title := some "a_b" }
      = Except.ok [{ id := 1, title := "axb", text := "hello", date := 5,
                     tags := [] }]
    ∧ containsCI "a_b".data "axb".data = false
    ∧ findAll dbC "" {}
      = Except.ok [{ id := 7, title := "t", text := "x", date := 3,
                     tags := [] }]
    ∧ dbC.moments = [{ id := 7, title := "t", text := "x", date := 3,
                       username := "bob" }]
    ∧ decide (("bob" : String) = "") = false := by decide

/-- C1 (amended): for every nonempty username and subset of filters,
`Moment.findAll` returns exactly the user's moments satisfying the
conjunction of the supplied filters, where title and text filters match as
case-insensitive SQL LIKE patterns of the filter value wrapped in `%`
(substring matching when the value contains no `%`/`_` wildcard and no `\`
escape), `dateStart`/`dateEnd` bound the date inclusively, and a tag filter
keeps only moments whose aggregated tag-name list contains the tag; filters
not supplied impose no restriction. -/
theorem C1_findAll_filter_semantics (st : DB) (u : String) (f : SearchFilters)
    (l : List FoundRow) (r : FoundRow) (hu : u ≠ "")
    (h : findAll st u f = Except.ok l) :
    r ∈ l ↔ ∃ m, m ∈ st.moments ∧ m.username = u
      ∧ (∀ t, f.title = some t →
          likeMatch (wrapPercent t).data m.title.data = true)
      ∧ (∀ t, f.text = some t →
          likeMatch (wrapPercent t).data m.text.data = true)
      ∧ (∀ dv, f.dateStart = some dv → dv ≤ m.date)
      ∧ (∀ dv, f.dateEnd = some dv → m.date ≤ dv)
      ∧ (∀ tg, f.tag = some tg →
          tg ∈ (momentTagInfos st m.id).map TagInfo.name)
      ∧ r = toRow st m := by
  unfold findAll at h
  by_cases hc : (st.users.find? (fun x => x.username == u)).isNone
  · simp [hc] at h
  · simp only [hc, if_false] at h
    have hl : List.insertionSort dateDesc
        ((st.moments.filter (matchesFilters st u f)).map (toRow st)) = l := by
      injection h
    subst hl
    rw [List.mem_insertionSort]
    constructor
    · intro hr
      obtain ⟨m, hm1, rfl⟩ := List.mem_map.mp hr
      obtain ⟨hm, hmf⟩ := List.mem_filter.mp hm1
      obtain ⟨h1, h2, h3, h4, h5, h6⟩ := (matchesFilters_iff st u f m hu).mp hmf
      exact ⟨m, hm, h1, h2, h3, h4, h5, h6, rfl⟩
    · rintro ⟨m, hm, h1, h2, h3, h4, h5, h6, rfl⟩
      exact List.mem_map.mpr ⟨m, List.mem_filter.mpr
        ⟨hm, (matchesFilters_iff st u f m hu).mpr ⟨h1, h2, h3, h4, h5, h6⟩⟩, rfl⟩

/-- The row `findAll dbB "u" { tag := some "fun" }` returns. -/
def rowB2 : FoundRow :=
  { id := 2, title := "B", text := "q", date := 9,
    tags := [{ id := 10, name := "fun" }] }

/-- C1 witness: the amended theorem at a concrete database and tag filter. -/
theorem C1_witness :
    ("u" : String) ≠ ""
    ∧ findAll dbB "u" { tag := some "fun" } = Except.ok [rowB2]
    ∧ (rowB2 ∈ [rowB2] ↔ ∃ m, m ∈ dbB.moments ∧ m.username = "u"
        ∧ (∀ t, ({ tag := some "fun" } : SearchFilters).title = some t →
            likeMatch (wrapPercent t).data m.title.data = true)
        ∧ (∀ t, ({ tag := some "fun" } : SearchFilters).text = some t →
            likeMatch (wrapPercent t).data m.text.data = true)
        ∧ (∀ dv, ({ tag := some "fun" } : SearchFilters).dateStart = some dv →
            dv ≤ m.date)
        ∧ (∀ dv, ({ tag := some "fun" } : SearchFilters).dateEnd = some dv →
            m.date ≤ dv)
        ∧ (∀ tg, ({ tag := some "fun" } : SearchFilters).tag = some tg →
            tg ∈ (momentTagInfos dbB m.id).map TagInfo.name)
        ∧ rowB2 = toRow dbB m) :=
  ⟨by decide, by decide,
   C1_findAll_filter_semantics dbB "u" { tag := some "fun" } [rowB2] rowB2
     (by decide) (by decide)⟩

/-- The parameter entry a supplied filter contributes (spec-side helper for
stating which values end up in the parameter array). -/
def optVal {α : Type} (o : Option α) (g : α → SqlValue) : List SqlValue :=
  match o with
  | none => []
  | some a => [g a]

/-- Final state of the placeholder scanner after a character list: `some n`
when the scan ends inside the digit run of a `$n` placeholder. -/
def scanState : List Char → Option Nat → Option Nat
  | [], st => st
  | c :: rest, none =>
      if c == '$' then scanState rest (some 0) else scanState rest none
  | c :: rest, some n =>
      if c.isDigit then scanState rest (some (10 * n + (c.toNat - 48)))
      else if c == '$' then scanState rest (some 0)
      else scanState rest none

/-- Placeholder numbers emitted while scanning a character list, without
flushing a number still being read at the end. -/
def scanOut : List Char → Option Nat → List Nat
  | [], _ => []
  | c :: rest, none =>
      if c == '$' then scanOut rest (some 0) else scanOut rest none
  | c :: rest, some n =>
      if c.isDigit then scanOut rest (some (10 * n + (c.toNat - 48)))
      else if c == '$' then n :: scanOut rest (some 0)
      else n :: scanOut rest none

/-- The placeholder scan of a concatenation: the first part's output, then
the scan of the second part starting from the first part's final state. -/
lemma scanPH_append (xs ys : List Char) (st : Option Nat) :
    scanPH (xs ++ ys) st = scanOut xs st ++ scanPH ys (scanState xs st) := by
  induction xs generalizing st with
  | nil =>
      cases st <;> simp [scanPH, scanOut, scanState]
  | cons c rest ih =>
      cases st with
      | none =>
          simp only [List.cons_append, scanPH, scanOut, scanState]
          split_ifs <;> simp [ih]
      | some n =>
          simp only [List.cons_append, scanPH, scanOut, scanState]
          split_ifs <;> simp [ih]

set_option maxRecDepth 100000 in
/-- The fixed SELECT/JOIN head contains no `$` placeholder, so scanning a
query beginning with it reduces to scanning the rest. -/
lemma placeholdersOf_select_append (t : String) :
    placeholdersOf (findAllSelect ++ t) = placeholdersOf t := by
  unfold placeholdersOf
  have hdata : (findAllSelect ++ t).data = findAllSelect.data ++ t.data := rfl
  rw [hdata, scanPH_append]
  have h1 : scanOut findAllSelect.data none = [] := by decide
  have h2 : scanState findAllSelect.data none = none := by decide
  rw [h1, h2, List.nil_append]

set_option maxRecDepth 100000 in
/-- The assembled query text depends only on which filters are supplied (and
on whether the username is falsy), never on the filter values: it equals the
text built from canonical values of the same shape. -/
lemma buildQuery_text_shape (u : String) (f : SearchFilters) :
    (buildFindAllQuery u f).1 =
      (buildFindAllQuery (if u = "" then "" else "x")
        (SearchFilters.mk (if f.tag.isSome then some "" else none)
          (if f.title.isSome then some "" else none)
          (if f.text.isSome then some "" else none)
          (if f.dateStart.isSome then some 0 else none)
          (if f.dateEnd.isSome then some 0 else none))).1 := by
  rcases f with ⟨tg, ti, tx, ds, de⟩
  by_cases hu : u = ""
  · subst hu
    cases tg <;> cases ti <;> cases tx <;> cases ds <;> cases de <;> rfl
  · cases tg <;> cases ti <;> cases tx <;> cases ds <;> cases de <;>
      simp only [buildFindAllQuery, QState.push, if_neg hu, Option.isSome] <;> rfl

/-- The parameter array is exactly the supplied values in push order:
username (when truthy), `%title%`, `%text%`, `dateStart`, `dateEnd`, tag. -/
lemma buildQuery_values (u : String) (f : SearchFilters) :
    (buildFindAllQuery u f).2 =
      (if u = "" then [] else [SqlValue.s u])
      ++ optVal f.title (fun t => SqlValue.s (wrapPercent t))
      ++ optVal f.text (fun t => SqlValue.s (wrapPercent t))
      ++ optVal f.dateStart SqlValue.d
      ++ optVal f.dateEnd SqlValue.d
      ++ optVal f.tag SqlValue.s := by
  rcases f with ⟨tg, ti, tx, ds, de⟩
  by_cases hu : u = ""
  · subst hu
    cases tg <;> cases ti <;> cases tx <;> cases ds <;> cases de <;> rfl
  · cases tg <;> cases ti <;> cases tx <;> cases ds <;> cases de <;>
      simp only [buildFindAllQuery, QState.push, optVal, if_neg hu] <;> rfl

set_option maxRecDepth 100000 in
/-- The `$k` placeholders of the assembled query, in textual order, are
exactly `$1 .. $n` where `n` is the length of the parameter array. -/
lemma buildQuery_placeholders (u : String) (f : SearchFilters) :
    placeholdersOf (buildFindAllQuery u f).1
      = List.range' 1 (buildFindAllQuery u f).2.length := by
  rcases f with ⟨tg, ti, tx, ds, de⟩
  by_cases hu : u = ""
  · subst hu
    cases tg <;> cases ti <;> cases tx <;> cases ds <;> cases de <;>
      (simp [buildFindAllQuery, QState.push, String.append_assoc]
       rw [placeholdersOf_select_append]
       rfl)
  · cases tg <;> cases ti <;> cases tx <;> cases ds <;> cases de <;>
      (simp [buildFindAllQuery, QState.push, if_neg hu, String.append_assoc]
       rw [placeholdersOf_select_append]
       rfl)

/-- C5: the query `Moment.findAll` builds is correctly parameterized. The
parameter array holds exactly the username (when truthy) and the supplied
filter values in push order, title/text only transformed by the `%` wrapping
inside the value; the placeholders occurring in the assembled text are
exactly `$1 .. $n`, in order, with the tag's HAVING placeholder appended
after the WHERE clauses; and no filter value reaches the query text — two
filter sets supplying the same fields yield the identical query string. -/
theorem C5_findAll_query_parameterized (u : String) (f : SearchFilters)
    (u2 : String) (f2 : SearchFilters) :
    ((buildFindAllQuery u f).2 =
      (if u = "" then [] else [SqlValue.s u])
      ++ optVal f.title (fun t => SqlValue.s (wrapPercent t))
      ++ optVal f.text (fun t => SqlValue.s (wrapPercent t))
      ++ optVal f.dateStart SqlValue.d
      ++ optVal f.dateEnd SqlValue.d
      ++ optVal f.tag SqlValue.s)
    ∧ (placeholdersOf (buildFindAllQuery u f).1
        = List.range' 1 (buildFindAllQuery u f).2.length)
    ∧ ((u = "" ↔ u2 = "") → f.title.isSome = f2.title.isSome →
        f.text.isSome = f2.text.isSome →
        f.dateStart.isSome = f2.dateStart.isSome →
        f.dateEnd.isSome = f2.dateEnd.isSome →
        f.tag.isSome = f2.tag.isSome →
        (buildFindAllQuery u f).1 = (buildFindAllQuery u2 f2).1) := by
  refine ⟨buildQuery_values u f, buildQuery_placeholders u f,
    fun h0 h1 h2 h3 h4 h5 => ?_⟩
  have hcan : (if u = "" then ("" : String) else "x")
      = (if u2 = "" then "" else "x") := by
    by_cases hcu : u = ""
    · simp [hcu, h0.mp hcu]
    · have hcu2 : ¬ u2 = "" := fun hh => hcu (h0.mpr hh)
      simp [hcu, hcu2]
  rw [buildQuery_text_shape u f, buildQuery_text_shape u2 f2,
    h1, h2, h3, h4, h5, hcan]

/-- C5 witness: the theorem at a concrete filter set (username, title, tag
supplied) against a second filter set of the same shape with different
values. -/
theorem C5_witness :
    ((buildFindAllQuery "u" (SearchFilters.mk (some "g") (some "t") none none none)).2 =
      [SqlValue.s "u"] ++ [SqlValue.s (wrapPercent "t")] ++ [] ++ [] ++ []
        ++ [SqlValue.s "g"])
    ∧ (placeholdersOf (buildFindAllQuery "u"
        (SearchFilters.mk (some "g") (some "t") none none none)).1
        = List.range' 1 (buildFindAllQuery "u"
            (SearchFilters.mk (some "g") (some "t") none none none)).2.length)
    ∧ (buildFindAllQuery "u"
        (SearchFilters.mk (some "g") (some "t") none none none)).1
      = (buildFindAllQuery "w"
          (SearchFilters.mk (some "kk") (some "zz") none none none)).1 :=
  ⟨(C5_findAll_query_parameterized "u"
      (SearchFilters.mk (some "g") (some "t") none none none) "w"
      (SearchFilters.mk (some "kk") (some "zz") none none none)).1,
   (C5_findAll_query_parameterized "u"
      (SearchFilters.mk (some "g") (some "t") none none none) "w"
      (SearchFilters.mk (some "kk") (some "zz") none none none)).2.1,
   (C5_findAll_query_parameterized "u"
      (SearchFilters.mk (some "g") (some "t") none none none) "w"
      (SearchFilters.mk (some "kk") (some "zz") none none none)).2.2
     (by simp) rfl rfl rfl rfl rfl⟩

/-- A request authenticated as `bob` whose route parameter is `bob`. -/
def reqParamBob : Request :=
  { user := some { username := "bob" }, paramsUsername := some "bob" }

/-- C2 witness: the amended theorem at a concrete request. -/
theorem C2_witness :
    (ensureCorrectUser reqParamBob = Except.ok reqParamBob
      ∨ ensureCorrectUser reqParamBob = Except.error JsErr.unauthorized)
    ∧ (ensureCorrectUser reqParamBob = Except.error JsErr.unauthorized ↔
        ¬ ∃ u, reqParamBob.user = some u
          ∧ jsOrUsername reqParamBob.paramsUsername reqParamBob.bodyUsername
              = some u.username) :=
  C2_ensureCorrectUser reqParamBob

end WonderJournal
